import Mathlib

/-!
Verification development for the Liebherr SmartDevice integration
(`custom_components/liebherr/__init__.py`).

The Python module is embedded shallowly:

* HTTP traffic is modelled by explicit response structures
  (`AuthResponses`, `PollBackend`) supplied as inputs; every request the
  code would issue is recorded in an output trace (`Request`).
* The mutable fields of `LiebherrAPI` that the modelled operations touch
  (`_username`, `_password`, `_token`, and the `secrets.token_urlsafe`
  randomness, modelled as a supply stream with a cursor) form `ApiState`.
* Python exceptions become `Except String`, carrying the exact message of
  the corresponding `LiebherrAuthException` raise site.  Python truthiness
  tests (`if not x`) on optional strings are `pyTruthy`.
* JSON records are structures with `Option` fields for keys accessed via
  `.get` with a default (an absent key is `none`; the vendor schema is
  assumed not to use JSON `null` for these keys).
-/

/-- Python truthiness of an optional string (`if not x` fails for `None`
and for the empty string). -/
def pyTruthy : Option String → Bool
  | none => false
  | some s => !s.isEmpty

/- ## The `re.search` pattern used by `_extract_verification_token` /
`_extract_ncforminfo`

Pattern: `<input[^>]*name=["']NAME["'][^>]*value=["']([^"']+)["']`,
implemented as a leftmost search with greedy, backtracking `[^>]*` parts,
exactly as Python's `re` module evaluates this pattern. -/

/-- A double or single quote, the character class `["']`. -/
def isQuoteChar (c : Char) : Bool := c = '"' || c = Char.ofNat 39

/-- Any character other than `>`, the character class `[^>]`. -/
def notGtChar (c : Char) : Bool := c ≠ '>'

/-- Match a literal sequence of characters, returning the rest. -/
def matchLit : List Char → List Char → Option (List Char)
  | [], rest => some rest
  | _ :: _, [] => none
  | c :: cs, d :: ds => if c = d then matchLit cs ds else none

/-- Match one character of the class `["']`. -/
def matchQuote : List Char → Option (List Char)
  | [] => none
  | c :: cs => if isQuoteChar c then some cs else none

/-- Greedy `p*` followed by continuation `k`, with backtracking: the
longest run of `p`-characters whose continuation succeeds wins. -/
def starThen (p : Char → Bool) (k : List Char → Option α) :
    List Char → Option α
  | [] => k []
  | c :: cs =>
    if p c then
      match starThen p k cs with
      | some r => some r
      | none => k (c :: cs)
    else k (c :: cs)

/-- The capture group `([^"']+)` followed by a closing `["']`; only the
maximal run can be followed by a quote, so no backtracking is needed. -/
def matchCaptureQuote (l : List Char) : Option (List Char) :=
  let run := l.takeWhile (fun c => !isQuoteChar c)
  let rest := l.dropWhile (fun c => !isQuoteChar c)
  if run.isEmpty then none
  else
    match rest with
    | [] => none
    | c :: _ => if isQuoteChar c then some run else none

/-- Attempt the whole input-tag pattern at the current position,
returning the captured `value` text. -/
def matchInputAt (name : List Char) (l : List Char) : Option (List Char) :=
  (matchLit ("<input".data) l).bind fun r1 =>
    starThen notGtChar
      (fun r2 =>
        (matchLit ("name=".data) r2).bind fun r3 =>
          (matchQuote r3).bind fun r4 =>
            (matchLit name r4).bind fun r5 =>
              (matchQuote r5).bind fun r6 =>
                starThen notGtChar
                  (fun r7 =>
                    (matchLit ("value=".data) r7).bind fun r8 =>
                      (matchQuote r8).bind matchCaptureQuote)
                  r6)
      r1

/-- Leftmost search of the pattern over the text, as `re.search`. -/
def searchInput (name : List Char) : List Char → Option (List Char)
  | [] => none
  | c :: cs =>
    match matchInputAt name (c :: cs) with
    | some v => some v
    | none => searchInput name cs

/-- `LiebherrAPI._extract_verification_token`: first match of the hidden
`__RequestVerificationToken` input field in the HTML, else the raise. -/
def extract_verification_token (html : String) : Option String :=
  (searchInput ("__RequestVerificationToken".data) html.data).map String.mk

/-- `LiebherrAPI._extract_ncforminfo`: first match of the hidden
`__ncforminfo` input field in the HTML, else the raise. -/
def extract_ncforminfo (html : String) : Option String :=
  (searchInput ("__ncforminfo".data) html.data).map String.mk

/- ## `urllib.parse.parse_qs` (default arguments) -/

/-- Hexadecimal digit test, as used by percent-decoding. -/
def isHexDigitChar (c : Char) : Bool :=
  c.isDigit || ('a' ≤ c && c ≤ 'f') || ('A' ≤ c && c ≤ 'F')

/-- Value of a hexadecimal digit. -/
def hexVal (c : Char) : Nat :=
  if c.isDigit then c.toNat - '0'.toNat
  else if 'a' ≤ c then c.toNat - 'a'.toNat + 10
  else c.toNat - 'A'.toNat + 10

/-- Percent-decoding as in `urllib.parse.unquote`: a `%` followed by two
hex digits becomes that byte, anything else is kept verbatim.  (Decoded
bytes are mapped directly to code points; the flows modelled here only
ever carry ASCII payloads, where this agrees with Python's UTF-8
decoding.) -/
def percentDecode : List Char → List Char
  | [] => []
  | '%' :: a :: b :: rest =>
    if isHexDigitChar a && isHexDigitChar b then
      Char.ofNat (hexVal a * 16 + hexVal b) :: percentDecode rest
    else '%' :: percentDecode (a :: b :: rest)
  | c :: rest => c :: percentDecode rest

/-- `unquote(s.replace('+', ' '))`, the transformation `parse_qsl`
applies to each name and value. -/
def unquotePlus (s : String) : String :=
  String.mk (percentDecode (s.data.map fun c => if c = '+' then ' ' else c))

/-- `urllib.parse.parse_qsl` with default arguments: split on `&`, skip
empty chunks, split each chunk on the first `=`, skip chunks without `=`
and chunks with an empty raw value (`keep_blank_values=False`), then
plus/percent-decode names and values. -/
def parse_qsl (query : String) : List (String × String) :=
  (query.splitOn ("&")).filterMap fun pair =>
    if pair.isEmpty then none
    else
      match pair.splitOn ("=") with
      | [] => none
      | [_] => none
      | k :: v1 :: vrest =>
        let rawv := String.intercalate ("=") (v1 :: vrest)
        if rawv.isEmpty then none
        else some (unquotePlus k, unquotePlus rawv)

/-- First value of the `code` query parameter of a redirect location, as
`parse_qs(location.split("?")[-1]).get("code", [None])[0]`
(`parse_qs` groups `parse_qsl` pairs in encounter order, so the first
value for `code` is the value of the first pair named `code`). -/
def codeParam (location : String) : Option String :=
  let query := (location.splitOn ("?")).getLastD ("")
  ((parse_qsl query).find? fun p => p.1 == "code").map fun p => p.2

/- ## SHA-256 (`hashlib.sha256`), over byte lists as `Nat` values -/

/-- Truncation to 32 bits. -/
def w32 (x : Nat) : Nat := x % 4294967296

/-- 32-bit right rotation (argument below `2 ^ 32`). -/
def rotr32 (n x : Nat) : Nat := x / 2 ^ n + x % 2 ^ n * 2 ^ (32 - n)

/-- Message-schedule sigma-0. -/
def mSig0 (x : Nat) : Nat :=
  Nat.xor (rotr32 7 x) (Nat.xor (rotr32 18 x) (x / 2 ^ 3))

/-- Message-schedule sigma-1. -/
def mSig1 (x : Nat) : Nat :=
  Nat.xor (rotr32 17 x) (Nat.xor (rotr32 19 x) (x / 2 ^ 10))

/-- Compression Sigma-0. -/
def bSig0 (x : Nat) : Nat :=
  Nat.xor (rotr32 2 x) (Nat.xor (rotr32 13 x) (rotr32 22 x))

/-- Compression Sigma-1. -/
def bSig1 (x : Nat) : Nat :=
  Nat.xor (rotr32 6 x) (Nat.xor (rotr32 11 x) (rotr32 25 x))

/-- The `Ch` function; bitwise complement over 32 bits is subtraction
from the all-ones mask. -/
def chFun (x y z : Nat) : Nat :=
  Nat.xor (Nat.land x y) (Nat.land (4294967295 - w32 x) z)

/-- The `Maj` function. -/
def majFun (x y z : Nat) : Nat :=
  Nat.xor (Nat.land x y) (Nat.xor (Nat.land x z) (Nat.land y z))

/-- Big-endian 32-bit words from bytes. -/
def bytesToWords : List Nat → List Nat
  | a :: b :: c :: d :: rest =>
    (a * 16777216 + b * 65536 + c * 256 + d) :: bytesToWords rest
  | _ => []

/-- Big-endian bytes of a 32-bit word. -/
def wordToBytes (x : Nat) : List Nat :=
  [x / 16777216 % 256, x / 65536 % 256, x / 256 % 256, x % 256]

/-- SHA-256 round constants. -/
def sha256K : List Nat :=
  [1116352408, 1899447441, 3049323471, 3921009573,
   961987163, 1508970993, 2453635748, 2870763221,
   3624381080, 310598401, 607225278, 1426881987,
   1925078388, 2162078206, 2614888103, 3248222580,
   3835390401, 4022224774, 264347078, 604807628,
   770255983, 1249150122, 1555081692, 1996064986,
   2554220882, 2821834349, 2952996808, 3210313671,
   3336571891, 3584528711, 113926993, 338241895,
   666307205, 773529912, 1294757372, 1396182291,
   1695183700, 1986661051, 2177026350, 2456956037,
   2730485921, 2820302411, 3259730800, 3345764771,
   3516065817, 3600352804, 4094571909, 275423344,
   430227734, 506948616, 659060556, 883997877,
   958139571, 1322822218, 1537002063, 1747873779,
   1955562222, 2024104815, 2227730452, 2361852424,
   2428436474, 2756734187, 3204031479, 3329325298]

/-- SHA-256 padding: `0x80`, zeros to 56 mod 64, 64-bit big-endian bit
length. -/
def sha256Pad (msg : List Nat) : List Nat :=
  let L := msg.length
  let zeros := (119 - L % 64) % 64
  let bits := L * 8
  msg ++ 128 :: List.replicate zeros 0 ++
    [bits / 2 ^ 56 % 256, bits / 2 ^ 48 % 256, bits / 2 ^ 40 % 256,
     bits / 2 ^ 32 % 256, bits / 2 ^ 24 % 256, bits / 2 ^ 16 % 256,
     bits / 2 ^ 8 % 256, bits % 256]

/-- Split into 64-byte blocks. -/
def chunks64 : List Nat → List (List Nat)
  | [] => []
  | a :: as => (a :: as).take 64 :: chunks64 ((a :: as).drop 64)
termination_by l => l.length
decreasing_by
  simp only [List.length_drop, List.length_cons]
  omega

/-- Extend the 16 block words to the full 64-entry message schedule by
appending `t` further words. -/
def extendSchedule (w : List Nat) : Nat → List Nat
  | 0 => w
  | t + 1 =>
    let n := w.length
    extendSchedule
      (w ++ [w32 (mSig1 (w.getD (n - 2) 0) + w.getD (n - 7) 0 +
        mSig0 (w.getD (n - 15) 0) + w.getD (n - 16) 0)]) t

/-- The eight working registers. -/
structure Sha8 where
  ra : Nat
  rb : Nat
  rc : Nat
  rd : Nat
  re : Nat
  rf : Nat
  rg : Nat
  rh : Nat

/-- Initial hash value. -/
def sha256H0 : Sha8 :=
  ⟨1779033703, 3144134277, 1013904242, 2773480762,
   1359893119, 2600822924, 528734635, 1541459225⟩

/-- One compression round. -/
def sha256Round (st : Sha8) (kw : Nat × Nat) : Sha8 :=
  let t1 := w32 (st.rh + bSig1 st.re + chFun st.re st.rf st.rg + kw.1 + kw.2)
  let t2 := w32 (bSig0 st.ra + majFun st.ra st.rb st.rc)
  ⟨w32 (t1 + t2), st.ra, st.rb, st.rc, w32 (st.rd + t1), st.re, st.rf, st.rg⟩

/-- Compress one 64-byte block into the running hash. -/
def sha256Block (hs : Sha8) (block : List Nat) : Sha8 :=
  let w := extendSchedule (bytesToWords block) 48
  let f := (sha256K.zip w).foldl sha256Round hs
  ⟨w32 (hs.ra + f.ra), w32 (hs.rb + f.rb), w32 (hs.rc + f.rc),
   w32 (hs.rd + f.rd), w32 (hs.re + f.re), w32 (hs.rf + f.rf),
   w32 (hs.rg + f.rg), w32 (hs.rh + f.rh)⟩

/-- `hashlib.sha256(msg).digest()` as a 32-byte list. -/
def sha256Bytes (msg : List Nat) : List Nat :=
  let hs := (chunks64 (sha256Pad msg)).foldl sha256Block sha256H0
  wordToBytes hs.ra ++ wordToBytes hs.rb ++ wordToBytes hs.rc ++
    wordToBytes hs.rd ++ wordToBytes hs.re ++ wordToBytes hs.rf ++
    wordToBytes hs.rg ++ wordToBytes hs.rh

/-- UTF-8 bytes of a string (`str.encode()`). -/
def utf8Bytes (s : String) : List Nat :=
  s.toUTF8.toList.map fun b => b.toNat

/- ## Base64 (`base64.urlsafe_b64encode` and the padding strip) -/

/-- The URL-safe base64 alphabet. -/
def b64Alphabet : List Char :=
  ("ABCDEFGHIJKLMNOPQRSTUVWXYZabcdefghijklmnopqrstuvwxyz0123456789-_".data)

/-- Character for a 6-bit group. -/
def b64Char (n : Nat) : Char := b64Alphabet.getD n 'A'

/-- `base64.urlsafe_b64encode`: standard base64 over the URL-safe
alphabet, with `=` padding. -/
def b64EncodePad : List Nat → List Char
  | [] => []
  | [a] => [b64Char (a / 4), b64Char (a % 4 * 16), '=', '=']
  | [a, b] => [b64Char (a / 4), b64Char (a % 4 * 16 + b / 16),
               b64Char (b % 16 * 4), '=']
  | a :: b :: c :: rest =>
    b64Char (a / 4) :: b64Char (a % 4 * 16 + b / 16) ::
      b64Char (b % 16 * 4 + c / 64) :: b64Char (c % 64) ::
      b64EncodePad rest

/-- Unpadded base64url, the encoding the specification describes:
the same groups with no `=` appended. -/
def b64EncodeNoPad : List Nat → List Char
  | [] => []
  | [a] => [b64Char (a / 4), b64Char (a % 4 * 16)]
  | [a, b] => [b64Char (a / 4), b64Char (a % 4 * 16 + b / 16),
               b64Char (b % 16 * 4)]
  | a :: b :: c :: rest =>
    b64Char (a / 4) :: b64Char (a % 4 * 16 + b / 16) ::
      b64Char (b % 16 * 4 + c / 64) :: b64Char (c % 64) ::
      b64EncodeNoPad rest

/-- `bytes.rstrip(b"=")`: drop every trailing `=`. -/
def rstripEq (l : List Char) : List Char :=
  (l.reverse.dropWhile fun c => c = '=').reverse

/-- `LiebherrAPI._generate_code_challenge`:
`base64.urlsafe_b64encode(sha256(v.encode()).digest()).rstrip(b"=").decode()`. -/
def generate_code_challenge (code_verifier : String) : String :=
  String.mk (rstripEq (b64EncodePad (sha256Bytes (utf8Bytes code_verifier))))

/-- The challenge as the specification words it: base64url of the SHA-256
digest with no padding. -/
def specCodeChallenge (code_verifier : String) : String :=
  String.mk (b64EncodeNoPad (sha256Bytes (utf8Bytes code_verifier)))

/- ## Data model -/

/-- The responses the four authentication endpoints would give during one
authentication attempt: the authorize page, the login submission, the
callback, and the token exchange. -/
structure AuthResponses where
  authorizeStatus : Nat
  authorizeHtml : String
  loginStatus : Nat
  loginLocation : Option String
  callbackStatus : Nat
  callbackLocation : Option String
  tokenStatus : Nat
  tokenAccessToken : Option String
deriving DecidableEq

/-- The `LiebherrAPI` fields the modelled operations read or write.
`rngIndex` is the cursor into the `secrets.token_urlsafe` supply stream:
each `_generate_code_verifier` call consumes one value. -/
structure ApiState where
  username : String
  password : String
  token : Option String
  rngIndex : Nat
deriving DecidableEq

/-- One HTTP request the code issues, with the data relevant to the
claims. -/
inductive Request where
  | authorizePage (codeChallenge : String)
  | loginSubmit (username password verificationToken ncforminfo : String)
  | callbackGet
  | tokenExchange (code codeVerifier : String)
  | getAppliancesList
  | getControls (deviceId : String)
  | putTemperature (endpoint : String) (value : Int)
  | getNotifications
deriving DecidableEq

deriving instance DecidableEq for Except

/-- Result of one modelled operation: the Python return value or the
propagated exception message, the `LiebherrAPI` state afterwards, and the
requests issued, in order. -/
structure Out (α : Type) where
  result : Except String α
  state : ApiState
  trace : List Request
deriving DecidableEq

/-- The `applianceInformation` object of a vendor appliance record. -/
structure ApplianceInformation where
  capabilities : List String
  connected : Option Bool
deriving DecidableEq

/-- A vendor appliance record as returned by the appliance-list call. -/
structure ApplianceRecord where
  deviceId : String
  applianceName : String
  imageUrl : String
  nickname : Option String
  applianceType : String
  applianceInformation : ApplianceInformation
deriving DecidableEq

/-- The appliance dictionary `get_appliances` builds; `γ` is the opaque
type of control records, which `get_controls` passes through verbatim. -/
structure Appliance (γ : Type) where
  deviceId : String
  model : String
  image : String
  nickname : String
  applianceType : String
  capabilities : List String
  available : Bool
  controls : List γ
deriving DecidableEq

/-- A vendor notification record. -/
structure NotificationRecord where
  deviceId : String
  notificationId : String
  notificationType : String
  isAcknowledged : Option Bool
deriving DecidableEq

/-- The combined data one poll tick returns. -/
structure Snapshot (γ : Type) where
  appliances : List (Appliance γ)
  notifications : List NotificationRecord
deriving DecidableEq

/-- A fixed backend state for one poll tick: the status and body each
endpoint would answer with, plus the authentication endpoints used on
re-authentication. -/
structure PollBackend (γ : Type) where
  auth : AuthResponses
  appliancesStatus : Nat
  appliancesBody : List ApplianceRecord
  controlsStatus : String → Nat
  controlsBody : String → List γ
  putTemperatureStatus : String → Nat
  notificationsStatus : Nat
  notificationsBody : List NotificationRecord

/-- The options of the config entry read by `fetch_notifications`. -/
structure ConfigOptions where
  devicesToNotify : List String
deriving DecidableEq

/- ## `LiebherrAPI.authenticate` -/

/-- `LiebherrAPI.authenticate`.  `supply` is the `secrets.token_urlsafe`
stream; the attempt generates its verifier from the current cursor first
(`_generate_code_verifier`), derives the challenge, and then walks the
four steps, raising the corresponding `LiebherrAuthException` message at
the first unexpected response. -/
def authenticate (supply : Nat → String) (r : AuthResponses)
    (s0 : ApiState) : Out Unit :=
  let code_verifier := supply s0.rngIndex
  let s := { s0 with rngIndex := s0.rngIndex + 1 }
  let code_challenge := generate_code_challenge code_verifier
  let req1 := Request.authorizePage code_challenge
  if r.authorizeStatus ≠ 200 then
    ⟨.error ("Failed to retrieve initial authentication page."), s, [req1]⟩
  else
    match extract_verification_token r.authorizeHtml with
    | none => ⟨.error ("Verification token not found in HTML"), s, [req1]⟩
    | some verification_token =>
      match extract_ncforminfo r.authorizeHtml with
      | none => ⟨.error ("ncforminfo not found in HTML"), s, [req1]⟩
      | some ncforminfo =>
        let req2 := Request.loginSubmit s.username s.password
          verification_token ncforminfo
        if ¬(r.loginStatus = 302 ∨ r.loginStatus = 200) then
          ⟨.error ("Failed to log in to Liebherr API"), s, [req1, req2]⟩
        else if ¬pyTruthy r.loginLocation then
          ⟨.error ("Missing redirect URL after login"), s, [req1, req2]⟩
        else
          let req3 := Request.callbackGet
          if ¬(r.callbackStatus = 302 ∨ r.callbackStatus = 0) then
            ⟨.error ("Failed to retrieve authorization code"), s,
              [req1, req2, req3]⟩
          else if ¬pyTruthy r.callbackLocation then
            ⟨.error ("Missing Location header for authorization code"), s,
              [req1, req2, req3]⟩
          else
            let authorization_code := codeParam (r.callbackLocation.getD (""))
            if ¬pyTruthy authorization_code then
              ⟨.error ("Missing authorization code"), s, [req1, req2, req3]⟩
            else
              let req4 := Request.tokenExchange (authorization_code.getD (""))
                code_verifier
              if r.tokenStatus ≠ 200 then
                ⟨.error ("Failed to exchange authorization code for token"),
                  s, [req1, req2, req3, req4]⟩
              else
                let s := { s with token := r.tokenAccessToken }
                if ¬pyTruthy r.tokenAccessToken then
                  ⟨.error ("Missing access token in token response"), s,
                    [req1, req2, req3, req4]⟩
                else ⟨.ok (), s, [req1, req2, req3, req4]⟩

/- ## Claim-side step classification

The specification names one typed error per protocol step
(`AuthPageError`, `LoginError`, `AuthorizationCodeError`,
`TokenExchangeError`); the code distinguishes the raise sites by their
messages.  `authErrorStep` maps each message to its step (1 to 4), and
the `stepNOk` predicates state, following the specification's wording,
that step N's response has the expected status and carries its required
fields. -/

/-- Step number (1-4) of each `LiebherrAuthException` message; step 1
messages form `AuthPageError`, step 2 `LoginError`, step 3
`AuthorizationCodeError`, step 4 `TokenExchangeError`. -/
def authErrorStep (e : String) : Nat :=
  if e = "Failed to retrieve initial authentication page." then 1
  else if e = "Verification token not found in HTML" then 1
  else if e = "ncforminfo not found in HTML" then 1
  else if e = "Failed to log in to Liebherr API" then 2
  else if e = "Missing redirect URL after login" then 2
  else if e = "Failed to retrieve authorization code" then 3
  else if e = "Missing Location header for authorization code" then 3
  else if e = "Missing authorization code" then 3
  else if e = "Failed to exchange authorization code for token" then 4
  else if e = "Missing access token in token response" then 4
  else 0

/-- Step 1 gives HTTP 200 and both hidden form fields are present. -/
def step1Ok (r : AuthResponses) : Bool :=
  r.authorizeStatus == 200 &&
    (extract_verification_token r.authorizeHtml).isSome &&
    (extract_ncforminfo r.authorizeHtml).isSome

/-- Step 2 gives HTTP 302 (or tolerated 200) and a `Location` header. -/
def step2Ok (r : AuthResponses) : Bool :=
  (r.loginStatus == 302 || r.loginStatus == 200) && pyTruthy r.loginLocation

/-- Step 3 gives HTTP 302 (or 0) with a `Location` header carrying a
`code` query parameter. -/
def step3Ok (r : AuthResponses) : Bool :=
  (r.callbackStatus == 302 || r.callbackStatus == 0) &&
    pyTruthy r.callbackLocation &&
    pyTruthy (codeParam (r.callbackLocation.getD ("")))

/-- Step 4 gives HTTP 200 with a non-empty `access_token` field. -/
def step4Ok (r : AuthResponses) : Bool :=
  r.tokenStatus == 200 && pyTruthy r.tokenAccessToken

/-- The first protocol step whose response is unexpected (1-4), or 0 when
every step would succeed. -/
def firstFailStep (r : AuthResponses) : Nat :=
  if ¬step1Ok r then 1
  else if ¬step2Ok r then 2
  else if ¬step3Ok r then 3
  else if ¬step4Ok r then 4
  else 0

/- ## Polling operations -/

/-- `LiebherrAPI.get_controls`.  The source checks `status != 200` first
and returns `[]`, so its subsequent `status == 401` re-authentication
branch is translated faithfully but can never run. -/
def get_controls (supply : Nat → String) (b : PollBackend γ) (s : ApiState)
    (device_id : String) : Out (List γ) :=
  let req := Request.getControls device_id
  if b.controlsStatus device_id ≠ 200 then ⟨.ok [], s, [req]⟩
  else if b.controlsStatus device_id = 401 then
    let a := authenticate supply b.auth s
    match a.result with
    | .error e => ⟨.error e, a.state, req :: a.trace⟩
    | .ok _ => ⟨.ok [], a.state, req :: a.trace⟩
  else ⟨.ok (b.controlsBody device_id), s, [req]⟩

/-- The appliance dictionary built for one record inside
`get_appliances`' list comprehension. -/
def mkAppliance (a : ApplianceRecord) (controls : List γ) : Appliance γ :=
  { deviceId := a.deviceId
    model := a.applianceName
    image := a.imageUrl
    nickname := a.nickname.getD a.applianceName
    applianceType := a.applianceType
    capabilities := a.applianceInformation.capabilities
    available := a.applianceInformation.connected.getD true
    controls := controls }

/-- The list comprehension of `get_appliances`: one dictionary per
record, each awaiting `get_controls` in order; an exception from a
`get_controls` call would propagate. -/
def build_appliances (supply : Nat → String) (b : PollBackend γ)
    (s : ApiState) : List ApplianceRecord → Out (List (Appliance γ))
  | [] => ⟨.ok [], s, []⟩
  | a :: rest =>
    let c := get_controls supply b s a.deviceId
    match c.result with
    | .error e => ⟨.error e, c.state, c.trace⟩
    | .ok controls =>
      let r := build_appliances supply b c.state rest
      match r.result with
      | .error e => ⟨.error e, r.state, c.trace ++ r.trace⟩
      | .ok apps =>
        ⟨.ok (mkAppliance a controls :: apps), r.state, c.trace ++ r.trace⟩

/-- The part of `LiebherrAPI.get_appliances` after the token check: the
list call, the (401-aware) error handling, and the comprehension. -/
def get_appliances_fetch (supply : Nat → String) (b : PollBackend γ)
    (s : ApiState) : Out (List (Appliance γ)) :=
  let req := Request.getAppliancesList
  if b.appliancesStatus ≠ 200 then
    if b.appliancesStatus = 401 then
      let a := authenticate supply b.auth s
      match a.result with
      | .error e => ⟨.error e, a.state, req :: a.trace⟩
      | .ok _ => ⟨.ok [], a.state, req :: a.trace⟩
    else ⟨.ok [], s, [req]⟩
  else
    let o := build_appliances supply b s b.appliancesBody
    ⟨o.result, o.state, req :: o.trace⟩

/-- `LiebherrAPI.get_appliances`.  With no stored token it first awaits
`authenticate` (which always returns `None`, so the `if auth is not
None` guard never fires and a successful authentication falls through to
the fetch; an exception propagates). -/
def get_appliances (supply : Nat → String) (b : PollBackend γ)
    (s : ApiState) : Out (List (Appliance γ)) :=
  match s.token with
  | none =>
    let a := authenticate supply b.auth s
    match a.result with
    | .error e => ⟨.error e, a.state, a.trace⟩
    | .ok _ =>
      let o := get_appliances_fetch supply b a.state
      ⟨o.result, o.state, a.trace ++ o.trace⟩
  | some _ => get_appliances_fetch supply b s

/-- `LiebherrAPI.get_notifications`.  Non-200 returns `[]`; on 401 it
awaits `authenticate` first (whose exception would propagate, as
`LiebherrAuthException` is not the caught `LiebherrFetchException`). -/
def get_notifications (supply : Nat → String) (b : PollBackend γ)
    (s : ApiState) : Out (List NotificationRecord) :=
  let req := Request.getNotifications
  if b.notificationsStatus = 200 then ⟨.ok b.notificationsBody, s, [req]⟩
  else if b.notificationsStatus = 401 then
    let a := authenticate supply b.auth s
    match a.result with
    | .error e => ⟨.error e, a.state, req :: a.trace⟩
    | .ok _ => ⟨.ok [], a.state, req :: a.trace⟩
  else ⟨.ok [], s, [req]⟩

/-- `LiebherrAPI.fetch_notifications`: fetch, then keep notifications
whose `deviceId` is among the configured `devices_to_notify` and that
are not acknowledged (`not n.get("isAcknowledged", False)`).
`process_notifications` only creates host notifications and does not
alter the list. -/
def fetch_notifications (supply : Nat → String) (b : PollBackend γ)
    (cfg : ConfigOptions) (s : ApiState) : Out (List NotificationRecord) :=
  let o := get_notifications supply b s
  match o.result with
  | .error e => ⟨.error e, o.state, o.trace⟩
  | .ok notifications =>
    let filtered := notifications.filter fun n =>
      cfg.devicesToNotify.contains n.deviceId && !n.isAcknowledged.getD false
    ⟨.ok filtered, o.state, o.trace⟩

/-- `async_update_method` of `async_setup_entry`: one poll tick, fetching
appliances then filtered notifications and combining them.  (Its
`except LiebherrUpdateException` re-wrap never fires, as neither call
raises that type.) -/
def async_update_method (supply : Nat → String) (b : PollBackend γ)
    (cfg : ConfigOptions) (s : ApiState) : Out (Snapshot γ) :=
  let oa := get_appliances supply b s
  match oa.result with
  | .error e => ⟨.error e, oa.state, oa.trace⟩
  | .ok appliances =>
    let onr := fetch_notifications supply b cfg oa.state
    match onr.result with
    | .error e => ⟨.error e, onr.state, oa.trace ++ onr.trace⟩
    | .ok notifications =>
      ⟨.ok ⟨appliances, notifications⟩, onr.state, oa.trace ++ onr.trace⟩

/-- `LiebherrAPI.set_temperature`: one PUT of `{"value": temperature}`;
a non-204 status is only logged.  No state is read back, no exception is
raised, and no snapshot is produced or modified. -/
def set_temperature (b : PollBackend γ) (s : ApiState) (endpoint : String)
    (temperature : Int) : Out Unit :=
  let req := Request.putTemperature endpoint temperature
  if b.putTemperatureStatus endpoint ≠ 204 then
    ⟨.ok (), s, [req]⟩
  else ⟨.ok (), s, [req]⟩

/- ## Theorems

Base64 padding lemmas for C4. -/

theorem getD_ne_of_not_mem (l : List Char) (n : Nat) (d : Char)
    (hd : d ≠ '=') (hl : '=' ∉ l) : l.getD n d ≠ '=' := by
  induction l generalizing n with
  | nil => simpa [List.getD_nil] using hd
  | cons c cs ih =>
    cases n with
    | zero =>
      simp only [List.getD_cons_zero]
      intro h
      exact hl (h ▸ List.mem_cons_self c cs)
    | succ m =>
      simp only [List.getD_cons_succ]
      exact ih m fun h => hl (List.mem_cons_of_mem _ h)

theorem b64Char_ne_eq (n : Nat) : b64Char n ≠ '=' :=
  getD_ne_of_not_mem _ n _ (by decide) (by decide)

theorem rstripEq_cons4 (w x y z : Char) (t : List Char) (hz : z ≠ '=') :
    rstripEq (w :: x :: y :: z :: t) = w :: x :: y :: z :: rstripEq t := by
  unfold rstripEq
  have h4 : List.dropWhile (fun c => c = '=') [z, y, x, w] = [z, y, x, w] := by
    rw [List.dropWhile_cons]
    simp [hz]
  have hrev : (w :: x :: y :: z :: t).reverse = t.reverse ++ [z, y, x, w] := by
    simp
  rw [hrev, List.dropWhile_append, h4]
  split
  next h =>
    rw [List.isEmpty_iff] at h
    simp [h]
  next _ => simp

theorem rstripEq_pad2 (c1 c2 : Char) (h2 : c2 ≠ '=') :
    rstripEq [c1, c2, '=', '='] = [c1, c2] := by
  simp [rstripEq, List.dropWhile, h2]

theorem rstripEq_pad1 (c1 c2 c3 : Char) (h3 : c3 ≠ '=') :
    rstripEq [c1, c2, c3, '='] = [c1, c2, c3] := by
  simp [rstripEq, List.dropWhile, h3]

theorem rstripEq_b64EncodePad : ∀ bs : List Nat,
    rstripEq (b64EncodePad bs) = b64EncodeNoPad bs
  | [] => rfl
  | [a] => rstripEq_pad2 _ _ (b64Char_ne_eq _)
  | [a, b] => rstripEq_pad1 _ _ _ (b64Char_ne_eq _)
  | a :: b :: c :: rest => by
    rw [show b64EncodePad (a :: b :: c :: rest) =
        b64Char (a / 4) :: b64Char (a % 4 * 16 + b / 16) ::
          b64Char (b % 16 * 4 + c / 64) :: b64Char (c % 64) ::
          b64EncodePad rest from rfl]
    rw [rstripEq_cons4 _ _ _ _ _ (b64Char_ne_eq _)]
    rw [rstripEq_b64EncodePad rest]
    rfl

/-- C4: for every code verifier string, the generated code challenge
equals the base64url encoding of the SHA-256 digest of the verifier with
all trailing `=` padding characters removed. -/
theorem claim_C4_code_challenge (code_verifier : String) :
    generate_code_challenge code_verifier = specCodeChallenge code_verifier := by
  unfold generate_code_challenge specCodeChallenge
  rw [rstripEq_b64EncodePad]

/-- C8: for every endpoint, temperature and backend response status,
`set_temperature` issues exactly one PUT request, returns normally
(never raises), and leaves the API state — in particular the stored
token — unchanged; no snapshot is produced or modified by the command. -/
theorem claim_C8_set_temperature_frame {γ : Type} (b : PollBackend γ)
    (s : ApiState) (endpoint : String) (temperature : Int) :
    set_temperature b s endpoint temperature =
      ⟨.ok (), s, [Request.putTemperature endpoint temperature]⟩ := by
  unfold set_temperature
  split <;> rfl

/- ## C3: controls-call 401 during a tick -/

/-- Auth responses for the C3 failing input (contents irrelevant: no
authentication request is ever issued). -/
def c3Auth : AuthResponses :=
  { authorizeStatus := 200, authorizeHtml := ""
    loginStatus := 302, loginLocation := some "https://app/cb"
    callbackStatus := 302, callbackLocation := some "https://app/cb?code=C"
    tokenStatus := 200, tokenAccessToken := some "TOKEN2" }

/-- Backend for the C3 failing input: the controls endpoint of appliance
`B` answers HTTP 401. -/
def c3Backend : PollBackend Nat :=
  { auth := c3Auth
    appliancesStatus := 200
    appliancesBody := []
    controlsStatus := fun _ => 401
    controlsBody := fun _ => []
    putTemperatureStatus := fun _ => 204
    notificationsStatus := 200
    notificationsBody := [] }

/-- API state for the C3 failing input: a token is present, so the tick
reaches the controls call. -/
def c3State : ApiState :=
  { username := "u", password := "p", token := some "TOKEN", rngIndex := 0 }

/-- C3 (failing input): when a per-appliance controls call returns
HTTP 401, `get_controls` returns `[]` without issuing any
authentication request and without touching the state — the request
trace is exactly the one controls GET, with no authorize/login/callback/
token-exchange request, so no authentication attempt is invoked.  The
source's `status == 401` re-authentication branch sits after an
unconditional `status != 200` return and is unreachable, contradicting
the claimed "exactly one authentication attempt". -/
theorem claim_C3_controls_401_no_reauth :
    get_controls (fun _ => "v") c3Backend c3State "B" =
      ⟨.ok [], c3State, [Request.getControls "B"]⟩ := by
  rfl

/- ## Authentication step lemmas (C1, C5, C6, C7) -/

/-- All four steps respond as expected. -/
def authOkB (r : AuthResponses) : Bool :=
  step1Ok r && step2Ok r && step3Ok r && step4Ok r

theorem auth_fail1 (supply : Nat → String) (r : AuthResponses)
    (s : ApiState) (h : step1Ok r = false) :
    (∃ e, (authenticate supply r s).result = .error e ∧ authErrorStep e = 1) ∧
      (authenticate supply r s).trace.length = 1 ∧
      (authenticate supply r s).state.token = s.token := by
  by_cases h1 : r.authorizeStatus = 200
  · cases hv : extract_verification_token r.authorizeHtml with
    | none =>
      refine ⟨⟨"Verification token not found in HTML", ?_, rfl⟩, ?_, ?_⟩ <;>
        simp [authenticate, h1, hv]
    | some v =>
      cases hn : extract_ncforminfo r.authorizeHtml with
      | none =>
        refine ⟨⟨"ncforminfo not found in HTML", ?_, rfl⟩, ?_, ?_⟩ <;>
          simp [authenticate, h1, hv, hn]
      | some n =>
        exfalso
        simp [step1Ok, h1, hv, hn] at h
  · refine ⟨⟨"Failed to retrieve initial authentication page.", ?_, rfl⟩, ?_, ?_⟩ <;>
      simp [authenticate, h1]

theorem auth_fail2 (supply : Nat → String) (r : AuthResponses)
    (s : ApiState) (h1 : step1Ok r = true) (h2 : step2Ok r = false) :
    (∃ e, (authenticate supply r s).result = .error e ∧ authErrorStep e = 2) ∧
      (authenticate supply r s).trace.length = 2 ∧
      (authenticate supply r s).state.token = s.token := by
  simp only [step1Ok, Bool.and_eq_true, beq_iff_eq] at h1
  obtain ⟨⟨hst, hv1⟩, hn1⟩ := h1
  obtain ⟨v, hv⟩ := Option.isSome_iff_exists.mp hv1
  obtain ⟨n, hn⟩ := Option.isSome_iff_exists.mp hn1
  by_cases hs : r.loginStatus = 302 ∨ r.loginStatus = 200
  · have himp : r.loginStatus = 302 ∨ r.loginStatus = 200 →
        pyTruthy r.loginLocation = false := by simpa [step2Ok] using h2
    have hl : pyTruthy r.loginLocation = false := himp hs
    refine ⟨⟨"Missing redirect URL after login", ?_, rfl⟩, ?_, ?_⟩ <;>
      simp [authenticate, hst, hv, hn, hs, hl]
  · refine ⟨⟨"Failed to log in to Liebherr API", ?_, rfl⟩, ?_, ?_⟩ <;>
      simp [authenticate, hst, hv, hn, hs]

theorem auth_fail3 (supply : Nat → String) (r : AuthResponses)
    (s : ApiState) (h1 : step1Ok r = true) (h2 : step2Ok r = true)
    (h3 : step3Ok r = false) :
    (∃ e, (authenticate supply r s).result = .error e ∧ authErrorStep e = 3) ∧
      (authenticate supply r s).trace.length = 3 ∧
      (authenticate supply r s).state.token = s.token := by
  simp only [step1Ok, Bool.and_eq_true, beq_iff_eq] at h1
  obtain ⟨⟨hst, hv1⟩, hn1⟩ := h1
  obtain ⟨v, hv⟩ := Option.isSome_iff_exists.mp hv1
  obtain ⟨n, hn⟩ := Option.isSome_iff_exists.mp hn1
  simp only [step2Ok, Bool.and_eq_true, Bool.or_eq_true, beq_iff_eq] at h2
  obtain ⟨hls, hll⟩ := h2
  by_cases hcs : r.callbackStatus = 302 ∨ r.callbackStatus = 0
  · by_cases hcl : pyTruthy r.callbackLocation = true
    · have himp : (r.callbackStatus = 302 ∨ r.callbackStatus = 0) →
          pyTruthy r.callbackLocation = true →
          pyTruthy (codeParam (r.callbackLocation.getD (""))) = false := by
        simpa [step3Ok] using h3
      have hcp := himp hcs hcl
      refine ⟨⟨"Missing authorization code", ?_, rfl⟩, ?_, ?_⟩ <;>
        simp [authenticate, hst, hv, hn, hls, hll, hcs, hcl, hcp]
    · have hcl2 : pyTruthy r.callbackLocation = false := by
        simpa using hcl
      refine ⟨⟨"Missing Location header for authorization code", ?_, rfl⟩, ?_, ?_⟩ <;>
        simp [authenticate, hst, hv, hn, hls, hll, hcs, hcl2]
  · refine ⟨⟨"Failed to retrieve authorization code", ?_, rfl⟩, ?_, ?_⟩ <;>
      simp [authenticate, hst, hv, hn, hls, hll, hcs]

theorem auth_fail4 (supply : Nat → String) (r : AuthResponses)
    (s : ApiState) (h1 : step1Ok r = true) (h2 : step2Ok r = true)
    (h3 : step3Ok r = true) (h4 : step4Ok r = false) :
    (∃ e, (authenticate supply r s).result = .error e ∧ authErrorStep e = 4) ∧
      (authenticate supply r s).trace.length = 4 ∧
      ((authenticate supply r s).state.token = s.token ∨
        ((authenticate supply r s).state.token = r.tokenAccessToken ∧
          pyTruthy r.tokenAccessToken = false)) := by
  simp only [step1Ok, Bool.and_eq_true, beq_iff_eq] at h1
  obtain ⟨⟨hst, hv1⟩, hn1⟩ := h1
  obtain ⟨v, hv⟩ := Option.isSome_iff_exists.mp hv1
  obtain ⟨n, hn⟩ := Option.isSome_iff_exists.mp hn1
  simp only [step2Ok, Bool.and_eq_true, Bool.or_eq_true, beq_iff_eq] at h2
  obtain ⟨hls, hll⟩ := h2
  simp only [step3Ok, Bool.and_eq_true, Bool.or_eq_true, beq_iff_eq] at h3
  obtain ⟨⟨hcs, hcl⟩, hcp⟩ := h3
  by_cases hts : r.tokenStatus = 200
  · have himp : r.tokenStatus = 200 → pyTruthy r.tokenAccessToken = false := by
      simpa [step4Ok] using h4
    have hta : pyTruthy r.tokenAccessToken = false := himp hts
    refine ⟨⟨"Missing access token in token response", ?_, rfl⟩, ?_, ?_⟩
    · simp [authenticate, hst, hv, hn, hls, hll, hcs, hcl, hcp, hts, hta]
    · simp [authenticate, hst, hv, hn, hls, hll, hcs, hcl, hcp, hts, hta]
    · right
      constructor
      · simp [authenticate, hst, hv, hn, hls, hll, hcs, hcl, hcp, hts, hta]
      · exact hta
  · refine ⟨⟨"Failed to exchange authorization code for token", ?_, rfl⟩, ?_, ?_⟩
    · simp [authenticate, hst, hv, hn, hls, hll, hcs, hcl, hcp, hts]
    · simp [authenticate, hst, hv, hn, hls, hll, hcs, hcl, hcp, hts]
    · left
      simp [authenticate, hst, hv, hn, hls, hll, hcs, hcl, hcp, hts]

theorem auth_succ (supply : Nat → String) (r : AuthResponses)
    (s : ApiState) (h : authOkB r = true) :
    (authenticate supply r s).result = .ok () ∧
      (authenticate supply r s).state =
        { s with rngIndex := s.rngIndex + 1, token := r.tokenAccessToken } ∧
      (authenticate supply r s).trace.length = 4 := by
  simp only [authOkB, Bool.and_eq_true] at h
  obtain ⟨⟨⟨h1, h2⟩, h3⟩, h4⟩ := h
  simp only [step1Ok, Bool.and_eq_true, beq_iff_eq] at h1
  obtain ⟨⟨hst, hv1⟩, hn1⟩ := h1
  obtain ⟨v, hv⟩ := Option.isSome_iff_exists.mp hv1
  obtain ⟨n, hn⟩ := Option.isSome_iff_exists.mp hn1
  simp only [step2Ok, Bool.and_eq_true, Bool.or_eq_true, beq_iff_eq] at h2
  obtain ⟨hls, hll⟩ := h2
  simp only [step3Ok, Bool.and_eq_true, Bool.or_eq_true, beq_iff_eq] at h3
  obtain ⟨⟨hcs, hcl⟩, hcp⟩ := h3
  simp only [step4Ok, Bool.and_eq_true, beq_iff_eq] at h4
  obtain ⟨hts, hta⟩ := h4
  refine ⟨?_, ?_, ?_⟩ <;>
    simp [authenticate, hst, hv, hn, hls, hll, hcs, hcl, hcp, hts, hta]

/-- C1: starting from a fresh state (no token), `authenticate` either —
when all four steps respond as expected — completes all four protocol
steps (the trace has all four requests) with result `ok` and a non-empty
bearer token stored, or — when step `k` is the first to return an
unexpected status or miss a required field — raises the
`LiebherrAuthException` whose message belongs to step `k`
(`AuthPageError`/`LoginError`/`AuthorizationCodeError`/
`TokenExchangeError` for `k` = 1/2/3/4 under `authErrorStep`), performs
no later step (the trace has exactly `k` requests), and stores no
(non-empty) token. -/
theorem claim_C1_authenticate_steps (supply : Nat → String)
    (r : AuthResponses) (u p : String) (i : Nat) :
    match firstFailStep r with
    | 0 =>
      (authenticate supply r ⟨u, p, none, i⟩).result = .ok () ∧
        pyTruthy (authenticate supply r ⟨u, p, none, i⟩).state.token = true ∧
        (authenticate supply r ⟨u, p, none, i⟩).trace.length = 4
    | k + 1 =>
      (∃ e, (authenticate supply r ⟨u, p, none, i⟩).result = .error e ∧
          authErrorStep e = k + 1) ∧
        (authenticate supply r ⟨u, p, none, i⟩).trace.length = k + 1 ∧
        pyTruthy (authenticate supply r ⟨u, p, none, i⟩).state.token = false := by
  by_cases h1 : step1Ok r
  case neg =>
    have h1f : step1Ok r = false := by simpa using h1
    have hf : firstFailStep r = 1 := by simp [firstFailStep, h1f]
    rw [hf]
    obtain ⟨he, hlen, htok⟩ := auth_fail1 supply r ⟨u, p, none, i⟩ h1f
    exact ⟨he, hlen, by rw [htok]; rfl⟩
  case pos =>
    by_cases h2 : step2Ok r
    case neg =>
      have h2f : step2Ok r = false := by simpa using h2
      have hf : firstFailStep r = 2 := by simp [firstFailStep, h1, h2f]
      rw [hf]
      obtain ⟨he, hlen, htok⟩ := auth_fail2 supply r ⟨u, p, none, i⟩ h1 h2f
      exact ⟨he, hlen, by rw [htok]; rfl⟩
    case pos =>
      by_cases h3 : step3Ok r
      case neg =>
        have h3f : step3Ok r = false := by simpa using h3
        have hf : firstFailStep r = 3 := by simp [firstFailStep, h1, h2, h3f]
        rw [hf]
        obtain ⟨he, hlen, htok⟩ := auth_fail3 supply r ⟨u, p, none, i⟩ h1 h2 h3f
        exact ⟨he, hlen, by rw [htok]; rfl⟩
      case pos =>
        by_cases h4 : step4Ok r
        case neg =>
          have h4f : step4Ok r = false := by simpa using h4
          have hf : firstFailStep r = 4 := by
            simp [firstFailStep, h1, h2, h3, h4f]
          rw [hf]
          obtain ⟨he, hlen, htok⟩ :=
            auth_fail4 supply r ⟨u, p, none, i⟩ h1 h2 h3 h4f
          refine ⟨he, hlen, ?_⟩
          rcases htok with htok | ⟨htok, hpt⟩
          · rw [htok]; rfl
          · rw [htok, hpt]
        case pos =>
          have hf : firstFailStep r = 0 := by
            simp [firstFailStep, h1, h2, h3, h4]
          rw [hf]
          have hok : authOkB r = true := by simp [authOkB, h1, h2, h3, h4]
          obtain ⟨hres, hstate, hlen⟩ := auth_succ supply r ⟨u, p, none, i⟩ hok
          refine ⟨hres, ?_, hlen⟩
          rw [hstate]
          have h4c : r.tokenStatus = 200 ∧ pyTruthy r.tokenAccessToken = true := by
            simpa [step4Ok] using h4
          exact h4c.2

/-- C5: if the authorize endpoint returns the login page (HTTP 200) but
the HTML lacks the anti-forgery `__RequestVerificationToken` field,
`authenticate` fails with the step-1 (`AuthPageError`) message
"Verification token not found in HTML" and the request trace is exactly
the one authorize-page GET: no request reaches the login submission
endpoint or any later endpoint. -/
theorem claim_C5_missing_verification_token (supply : Nat → String)
    (r : AuthResponses) (s : ApiState) (hstatus : r.authorizeStatus = 200)
    (hmiss : extract_verification_token r.authorizeHtml = none) :
    (authenticate supply r s).result =
        .error "Verification token not found in HTML" ∧
      authErrorStep "Verification token not found in HTML" = 1 ∧
      ∃ ch, (authenticate supply r s).trace = [Request.authorizePage ch] := by
  refine ⟨?_, rfl, ⟨generate_code_challenge (supply s.rngIndex), ?_⟩⟩ <;>
    simp [authenticate, hstatus, hmiss]

/-- Login-page HTML without any `__RequestVerificationToken` field, for
the C5 witness. -/
def c5Responses : AuthResponses :=
  { authorizeStatus := 200
    authorizeHtml := "<html><body><form>no hidden fields</form></body></html>"
    loginStatus := 302, loginLocation := some "https://app/cb"
    callbackStatus := 302, callbackLocation := some "https://app/cb?code=x"
    tokenStatus := 200, tokenAccessToken := some "T" }

/-- Initial API state for the C5 witness. -/
def c5State : ApiState :=
  { username := "user", password := "pass", token := none, rngIndex := 0 }

/-- Verifier supply for the C5 witness. -/
def c5Supply : Nat → String := fun _ => "verifier"

theorem claim_C5_witness :
    c5Responses.authorizeStatus = 200 ∧
      extract_verification_token c5Responses.authorizeHtml = none ∧
      ((authenticate c5Supply c5Responses c5State).result =
          .error "Verification token not found in HTML" ∧
        authErrorStep "Verification token not found in HTML" = 1 ∧
        ∃ ch, (authenticate c5Supply c5Responses c5State).trace =
          [Request.authorizePage ch]) :=
  ⟨rfl, rfl,
    claim_C5_missing_verification_token c5Supply c5Responses c5State rfl rfl⟩

/- ## C7: PKCE freshness -/

/-- The `code_verifier` values carried by the token-exchange requests of
a trace. -/
def exchangeVerifiers (tr : List Request) : List String :=
  tr.filterMap fun q =>
    match q with
    | Request.tokenExchange _ v => some v
    | _ => none

/-- The `code_challenge` values carried by the authorize-page requests
of a trace. -/
def authorizeChallenges (tr : List Request) : List String :=
  tr.filterMap fun q =>
    match q with
    | Request.authorizePage c => some c
    | _ => none

/-- Every attempt draws one fresh verifier: its authorize request
carries exactly the challenge of `supply s.rngIndex`, any token-exchange
request carries that same verifier, and the cursor advances by one. -/
theorem auth_attempt_shape (supply : Nat → String) (r : AuthResponses)
    (s : ApiState) :
    (exchangeVerifiers (authenticate supply r s).trace).all
        (fun v => v == supply s.rngIndex) = true ∧
      authorizeChallenges (authenticate supply r s).trace =
        [generate_code_challenge (supply s.rngIndex)] ∧
      (authenticate supply r s).state.rngIndex = s.rngIndex + 1 := by
  simp only [authenticate]
  repeat' split
  all_goals simp [exchangeVerifiers, authorizeChallenges]

/-- C7: the step-4 token exchange of an attempt uses the verifier
freshly generated at the start of that same attempt — the one whose
challenge went into the step-1 authorize request — and, for an injective
randomness supply, a second attempt never reuses the first attempt's
verifier. -/
theorem claim_C7_pkce_freshness (supply : Nat → String)
    (hinj : Function.Injective supply) (r1 r2 : AuthResponses)
    (s : ApiState) :
    (exchangeVerifiers (authenticate supply r1 s).trace).all
        (fun v => v == supply s.rngIndex) = true ∧
      authorizeChallenges (authenticate supply r1 s).trace =
        [generate_code_challenge (supply s.rngIndex)] ∧
      (exchangeVerifiers
          (authenticate supply r2 (authenticate supply r1 s).state).trace).all
        (fun v => v == supply (s.rngIndex + 1)) = true ∧
      supply (s.rngIndex + 1) ≠ supply s.rngIndex := by
  obtain ⟨ha1, ha2, ha3⟩ := auth_attempt_shape supply r1 s
  obtain ⟨hb1, _, _⟩ :=
    auth_attempt_shape supply r2 (authenticate supply r1 s).state
  rw [ha3] at hb1
  refine ⟨ha1, ha2, hb1, fun h => ?_⟩
  have := hinj h
  omega

/-- Injective verifier supply for the C7 witness. -/
def c7Supply : Nat → String := fun n => String.mk (List.replicate n 'a')

/-- Auth responses for the C7 witness (contents irrelevant to
freshness). -/
def c7Responses : AuthResponses :=
  { authorizeStatus := 503, authorizeHtml := ""
    loginStatus := 302, loginLocation := none
    callbackStatus := 302, callbackLocation := none
    tokenStatus := 200, tokenAccessToken := none }

/-- API state for the C7 witness. -/
def c7State : ApiState :=
  { username := "u", password := "p", token := none, rngIndex := 5 }

theorem claim_C7_witness :
    Function.Injective c7Supply ∧
      ((exchangeVerifiers (authenticate c7Supply c7Responses c7State).trace).all
          (fun v => v == c7Supply c7State.rngIndex) = true ∧
        authorizeChallenges (authenticate c7Supply c7Responses c7State).trace =
          [generate_code_challenge (c7Supply c7State.rngIndex)] ∧
        (exchangeVerifiers
            (authenticate c7Supply c7Responses
              (authenticate c7Supply c7Responses c7State).state).trace).all
          (fun v => v == c7Supply (c7State.rngIndex + 1)) = true ∧
        c7Supply (c7State.rngIndex + 1) ≠ c7Supply c7State.rngIndex) := by
  have hinj : Function.Injective c7Supply := by
    intro a b h
    have hlen := congrArg (fun t => t.data.length) h
    simpa [c7Supply] using hlen
  exact ⟨hinj,
    claim_C7_pkce_freshness c7Supply hinj c7Responses c7Responses c7State⟩

/- ## Polling lemmas -/

theorem get_controls_eq {γ : Type} (supply : Nat → String)
    (b : PollBackend γ) (s : ApiState) (d : String) :
    get_controls supply b s d =
      ⟨.ok (if b.controlsStatus d = 200 then b.controlsBody d else []),
        s, [Request.getControls d]⟩ := by
  unfold get_controls
  by_cases h : b.controlsStatus d = 200 <;> simp [h]

theorem build_appliances_eq {γ : Type} (supply : Nat → String)
    (b : PollBackend γ) (s : ApiState) (recs : List ApplianceRecord) :
    build_appliances supply b s recs =
      ⟨.ok (recs.map fun a =>
          mkAppliance a
            (if b.controlsStatus a.deviceId = 200
              then b.controlsBody a.deviceId else [])),
        s, recs.map fun a => Request.getControls a.deviceId⟩ := by
  induction recs with
  | nil => rfl
  | cons a rest ih =>
    simp [build_appliances, get_controls_eq, ih]

theorem get_appliances_fetch_200 {γ : Type} (supply : Nat → String)
    (b : PollBackend γ) (s : ApiState) (h : b.appliancesStatus = 200) :
    get_appliances_fetch supply b s =
      ⟨.ok (b.appliancesBody.map fun a =>
          mkAppliance a
            (if b.controlsStatus a.deviceId = 200
              then b.controlsBody a.deviceId else [])),
        s, Request.getAppliancesList ::
          b.appliancesBody.map fun a => Request.getControls a.deviceId⟩ := by
  simp [get_appliances_fetch, h, build_appliances_eq]

/-- C9: for every successful appliance-list call, the snapshot entries
correspond one-to-one to the vendor records (same `deviceId`s, in
order), and each entry's `available` equals the record's
`applianceInformation.connected` field, `true` when that field is
absent. -/
theorem claim_C9_available_field {γ : Type} (supply : Nat → String)
    (b : PollBackend γ) (s : ApiState) (tk : String)
    (htok : s.token = some tk) (happ : b.appliancesStatus = 200) :
    ∃ l, (get_appliances supply b s).result = .ok l ∧
      l.map (fun x => x.deviceId) =
        b.appliancesBody.map (fun a => a.deviceId) ∧
      l.map (fun x => x.available) =
        b.appliancesBody.map
          (fun a => a.applianceInformation.connected.getD true) := by
  refine ⟨b.appliancesBody.map fun a =>
      mkAppliance a
        (if b.controlsStatus a.deviceId = 200
          then b.controlsBody a.deviceId else []), ?_, ?_, ?_⟩
  · rw [show get_appliances supply b s = get_appliances_fetch supply b s by
      unfold get_appliances; rw [htok]]
    rw [get_appliances_fetch_200 supply b s happ]
  · simp [List.map_map, mkAppliance, Function.comp]
  · simp [List.map_map, mkAppliance, Function.comp]

/-- Appliance record for the C9 witness with `connected` present and
false. -/
def c9RecOff : ApplianceRecord :=
  { deviceId := "A", applianceName := "mA", imageUrl := "iA"
    nickname := some "nickA", applianceType := "FRIDGE"
    applianceInformation := { capabilities := ["CAP"], connected := some false } }

/-- Appliance record for the C9 witness with `connected` absent. -/
def c9RecAbsent : ApplianceRecord :=
  { deviceId := "B", applianceName := "mB", imageUrl := "iB"
    nickname := none, applianceType := "FREEZER"
    applianceInformation := { capabilities := [], connected := none } }

/-- Backend for the C9 witness. -/
def c9Backend : PollBackend Nat :=
  { auth := c3Auth
    appliancesStatus := 200
    appliancesBody := [c9RecOff, c9RecAbsent]
    controlsStatus := fun _ => 200
    controlsBody := fun _ => [3]
    putTemperatureStatus := fun _ => 204
    notificationsStatus := 200
    notificationsBody := [] }

/-- API state for the C9 witness. -/
def c9State : ApiState :=
  { username := "u", password := "p", token := some "TOK", rngIndex := 0 }

theorem claim_C9_witness :
    c9State.token = some "TOK" ∧ c9Backend.appliancesStatus = 200 ∧
      ∃ l, (get_appliances (fun _ => "v") c9Backend c9State).result = .ok l ∧
        l.map (fun x => x.deviceId) =
          c9Backend.appliancesBody.map (fun a => a.deviceId) ∧
        l.map (fun x => x.available) =
          c9Backend.appliancesBody.map
            (fun a => a.applianceInformation.connected.getD true) :=
  ⟨rfl, rfl,
    claim_C9_available_field (fun _ => "v") c9Backend c9State "TOK" rfl rfl⟩

theorem fetch_notifications_200 {γ : Type} (supply : Nat → String)
    (b : PollBackend γ) (cfg : ConfigOptions) (s : ApiState)
    (hnot : b.notificationsStatus = 200) :
    fetch_notifications supply b cfg s =
      ⟨.ok (b.notificationsBody.filter fun n =>
          cfg.devicesToNotify.contains n.deviceId &&
            !n.isAcknowledged.getD false),
        s, [Request.getNotifications]⟩ := by
  simp [fetch_notifications, get_notifications, hnot]

/-- C2: in a tick where one appliance's controls call fails with a
non-200, non-401 status while the other appliances' controls calls and
the remaining calls succeed, the snapshot carries that appliance with
`controls = []` and every other appliance with its fetched controls
unchanged. -/
theorem claim_C2_controls_degradation {γ : Type} (supply : Nat → String)
    (b : PollBackend γ) (cfg : ConfigOptions) (s : ApiState) (tk : String)
    (dBad : String)
    (htok : s.token = some tk)
    (happ : b.appliancesStatus = 200)
    (hnot : b.notificationsStatus = 200)
    (hbad : b.controlsStatus dBad ≠ 200)
    (_hbad401 : b.controlsStatus dBad ≠ 401)
    (hothers : ∀ a ∈ b.appliancesBody, a.deviceId ≠ dBad →
      b.controlsStatus a.deviceId = 200) :
    (async_update_method supply b cfg s).result =
      .ok ⟨b.appliancesBody.map fun a =>
          mkAppliance a
            (if a.deviceId = dBad then [] else b.controlsBody a.deviceId),
        b.notificationsBody.filter fun n =>
          cfg.devicesToNotify.contains n.deviceId &&
            !n.isAcknowledged.getD false⟩ := by
  have hga : get_appliances supply b s = get_appliances_fetch supply b s := by
    unfold get_appliances
    rw [htok]
  have hm : (b.appliancesBody.map fun a =>
      mkAppliance a
        (if b.controlsStatus a.deviceId = 200
          then b.controlsBody a.deviceId else [])) =
      b.appliancesBody.map fun a =>
        mkAppliance a
          (if a.deviceId = dBad then [] else b.controlsBody a.deviceId) := by
    apply List.map_congr_left
    intro a ha
    by_cases hd : a.deviceId = dBad
    · rw [hd, if_pos rfl, if_neg hbad]
    · rw [if_neg hd, if_pos (hothers a ha hd)]
  simp only [async_update_method, hga, get_appliances_fetch_200 supply b s happ,
    fetch_notifications_200 supply b cfg s hnot, hm]

/-- Backend for the C2 witness, realising the claim's example: appliance
`A`'s controls call succeeds, appliance `B`'s answers HTTP 500. -/
def c2Backend : PollBackend Nat :=
  { auth := c3Auth
    appliancesStatus := 200
    appliancesBody := [c9RecOff, c9RecAbsent]
    controlsStatus := fun d => if d = "B" then 500 else 200
    controlsBody := fun d => if d = "A" then [7] else [9]
    putTemperatureStatus := fun _ => 204
    notificationsStatus := 200
    notificationsBody := [] }

/-- Config options for the C2 witness. -/
def c2Cfg : ConfigOptions := { devicesToNotify := ["A"] }

theorem claim_C2_witness :
    c9State.token = some "TOK" ∧
      c2Backend.appliancesStatus = 200 ∧
      c2Backend.notificationsStatus = 200 ∧
      c2Backend.controlsStatus "B" ≠ 200 ∧
      c2Backend.controlsStatus "B" ≠ 401 ∧
      (∀ a ∈ c2Backend.appliancesBody, a.deviceId ≠ "B" →
        c2Backend.controlsStatus a.deviceId = 200) ∧
      (async_update_method (fun _ => "v") c2Backend c2Cfg c9State).result =
        .ok ⟨c2Backend.appliancesBody.map fun a =>
            mkAppliance a
              (if a.deviceId = "B" then [] else c2Backend.controlsBody a.deviceId),
          c2Backend.notificationsBody.filter fun n =>
            c2Cfg.devicesToNotify.contains n.deviceId &&
              !n.isAcknowledged.getD false⟩ :=
  ⟨rfl, rfl, rfl, by decide, by decide, by decide,
    claim_C2_controls_degradation (fun _ => "v") c2Backend c2Cfg c9State "TOK"
      "B" rfl rfl rfl (by decide) (by decide) (by decide)⟩

theorem fetch_notifications_ok_mem {γ : Type} (supply : Nat → String)
    (b : PollBackend γ) (cfg : ConfigOptions) (s : ApiState)
    (l : List NotificationRecord) (n : NotificationRecord)
    (h : (fetch_notifications supply b cfg s).result = .ok l)
    (hn : n ∈ l) :
    cfg.devicesToNotify.contains n.deviceId = true ∧
      n.isAcknowledged.getD false = false := by
  simp only [fetch_notifications] at h
  cases hres : (get_notifications supply b s).result with
  | error e =>
    rw [hres] at h
    simp at h
  | ok notifications =>
    rw [hres] at h
    have hl : notifications.filter (fun n =>
        cfg.devicesToNotify.contains n.deviceId &&
          !n.isAcknowledged.getD false) = l := by
      simpa using h
    rw [← hl] at hn
    have hand := (List.mem_filter.mp hn).2
    simp only [Bool.and_eq_true] at hand
    exact ⟨hand.1, by simpa using hand.2⟩

/-- C10: every notification in a successfully produced snapshot has a
`deviceId` among the configured `devices_to_notify` and is not
acknowledged (the `isAcknowledged` field is `false` or absent);
notifications of unselected devices or already acknowledged ones never
appear. -/
theorem claim_C10_notification_filter {γ : Type} (supply : Nat → String)
    (b : PollBackend γ) (cfg : ConfigOptions) (s : ApiState)
    (snap : Snapshot γ) (n : NotificationRecord)
    (hok : (async_update_method supply b cfg s).result = .ok snap)
    (hmem : n ∈ snap.notifications) :
    n.deviceId ∈ cfg.devicesToNotify ∧
      n.isAcknowledged.getD false = false := by
  simp only [async_update_method] at hok
  cases hga : (get_appliances supply b s).result with
  | error e =>
    rw [hga] at hok
    simp at hok
  | ok appliances =>
    rw [hga] at hok
    cases hfn : (fetch_notifications supply b cfg
        (get_appliances supply b s).state).result with
    | error e =>
      rw [hfn] at hok
      simp at hok
    | ok notifications =>
      rw [hfn] at hok
      have hsnap : (⟨appliances, notifications⟩ : Snapshot γ) = snap := by
        simpa using hok
      rw [← hsnap] at hmem
      have hprop := fetch_notifications_ok_mem supply b cfg
        (get_appliances supply b s).state notifications n hfn hmem
      refine ⟨?_, hprop.2⟩
      have hc := hprop.1
      simpa [List.contains] using hc

/-- A notification that passes the filter, for the C10 witness. -/
def c10n1 : NotificationRecord :=
  { deviceId := "A", notificationId := "n1"
    notificationType := "door_alarm", isAcknowledged := none }

/-- Backend for the C10 witness: one acceptable notification, one
acknowledged one, one for an unselected device. -/
def c10Backend : PollBackend Nat :=
  { auth := c3Auth
    appliancesStatus := 200
    appliancesBody := []
    controlsStatus := fun _ => 200
    controlsBody := fun _ => []
    putTemperatureStatus := fun _ => 204
    notificationsStatus := 200
    notificationsBody :=
      [c10n1,
       { deviceId := "A", notificationId := "n2"
         notificationType := "door_alarm", isAcknowledged := some true },
       { deviceId := "C", notificationId := "n3"
         notificationType := "door_alarm", isAcknowledged := none }] }

/-- Config options for the C10 witness: only device `A` selected. -/
def c10Cfg : ConfigOptions := { devicesToNotify := ["A"] }

theorem claim_C10_witness :
    (async_update_method (fun _ => "v") c10Backend c10Cfg c9State).result =
        .ok ⟨[], [c10n1]⟩ ∧
      c10n1 ∈ (⟨[], [c10n1]⟩ : Snapshot Nat).notifications ∧
      (c10n1.deviceId ∈ c10Cfg.devicesToNotify ∧
        c10n1.isAcknowledged.getD false = false) :=
  ⟨rfl, by decide,
    claim_C10_notification_filter (fun _ => "v") c10Backend c10Cfg c9State
      ⟨[], [c10n1]⟩ c10n1 rfl (by decide)⟩

/- ## C6: poll idempotence -/

/-- The appliances collection a tick yields, as a function of the fixed
backend state alone. -/
def tickAppliances (b : PollBackend γ) : List (Appliance γ) :=
  if b.appliancesStatus = 200 then
    b.appliancesBody.map fun a =>
      mkAppliance a
        (if b.controlsStatus a.deviceId = 200 then b.controlsBody a.deviceId
          else [])
  else []

/-- The notifications collection a tick yields, as a function of the
fixed backend state and options alone. -/
def tickNotifications (b : PollBackend γ) (cfg : ConfigOptions) :
    List NotificationRecord :=
  if b.notificationsStatus = 200 then
    b.notificationsBody.filter fun n =>
      cfg.devicesToNotify.contains n.deviceId && !n.isAcknowledged.getD false
  else []

theorem authOkB_pyTruthy (r : AuthResponses) (h : authOkB r = true) :
    pyTruthy r.tokenAccessToken = true := by
  simp only [authOkB, Bool.and_eq_true] at h
  have h4 := h.2
  simp only [step4Ok, Bool.and_eq_true] at h4
  exact h4.2

theorem auth_fail_result (supply : Nat → String) (r : AuthResponses)
    (s : ApiState) (h : authOkB r = false) :
    ∃ e, (authenticate supply r s).result = .error e := by
  by_cases h1 : step1Ok r
  · by_cases h2 : step2Ok r
    · by_cases h3 : step3Ok r
      · have h4 : step4Ok r = false := by
          by_contra hc
          have hc2 : step4Ok r = true := by simpa using hc
          simp [authOkB, h1, h2, h3, hc2] at h
        obtain ⟨⟨e, he, _⟩, _, _⟩ := auth_fail4 supply r s h1 h2 h3 h4
        exact ⟨e, he⟩
      · obtain ⟨⟨e, he, _⟩, _, _⟩ :=
          auth_fail3 supply r s h1 h2 (by simpa using h3)
        exact ⟨e, he⟩
    · obtain ⟨⟨e, he, _⟩, _, _⟩ :=
        auth_fail2 supply r s h1 (by simpa using h2)
      exact ⟨e, he⟩
  · obtain ⟨⟨e, he, _⟩, _, _⟩ :=
      auth_fail1 supply r s (by simpa using h1)
    exact ⟨e, he⟩

theorem auth_ok_iff (supply : Nat → String) (r : AuthResponses)
    (s : ApiState) :
    (authenticate supply r s).result = .ok () ↔ authOkB r = true := by
  constructor
  · intro h
    by_contra hno
    obtain ⟨e, he⟩ := auth_fail_result supply r s (by simpa using hno)
    rw [h] at he
    cases he
  · intro h
    exact (auth_succ supply r s h).1

theorem auth_ok_token (supply : Nat → String) (r : AuthResponses)
    (s : ApiState) (h : authOkB r = true) :
    ∃ t, (authenticate supply r s).state.token = some t := by
  obtain ⟨_, hstate, _⟩ := auth_succ supply r s h
  rw [hstate]
  have hp := authOkB_pyTruthy r h
  cases hta : r.tokenAccessToken with
  | none => rw [hta] at hp; simp [pyTruthy] at hp
  | some t => exact ⟨t, by simp [hta]⟩

theorem get_appliances_fetch_other {γ : Type} (supply : Nat → String)
    (b : PollBackend γ) (s : ApiState) (h200 : b.appliancesStatus ≠ 200)
    (h401 : b.appliancesStatus ≠ 401) :
    get_appliances_fetch supply b s =
      ⟨.ok [], s, [Request.getAppliancesList]⟩ := by
  simp [get_appliances_fetch, h200, h401]

theorem get_appliances_fetch_401_ok {γ : Type} (supply : Nat → String)
    (b : PollBackend γ) (s : ApiState) (_h200 : b.appliancesStatus ≠ 200)
    (h401 : b.appliancesStatus = 401) (hok : authOkB b.auth = true) :
    get_appliances_fetch supply b s =
      ⟨.ok [], (authenticate supply b.auth s).state,
        Request.getAppliancesList :: (authenticate supply b.auth s).trace⟩ := by
  have hres := (auth_succ supply b.auth s hok).1
  simp [get_appliances_fetch, h401, hres]

theorem get_appliances_fetch_inv {γ : Type} (supply : Nat → String)
    (b : PollBackend γ) (s : ApiState) (l : List (Appliance γ))
    (h : (get_appliances_fetch supply b s).result = .ok l) :
    l = tickAppliances b ∧
      (b.appliancesStatus = 401 → authOkB b.auth = true) ∧
      ((get_appliances_fetch supply b s).state.token = s.token ∨
        ∃ t, (get_appliances_fetch supply b s).state.token = some t) := by
  by_cases h200 : b.appliancesStatus = 200
  · rw [get_appliances_fetch_200 supply b s h200] at h ⊢
    refine ⟨by simpa [tickAppliances, h200] using h.symm, ?_, Or.inl rfl⟩
    intro h401
    rw [h200] at h401
    cases h401
  · by_cases h401 : b.appliancesStatus = 401
    · cases hA : (authenticate supply b.auth s).result with
      | error e =>
        exfalso
        rw [show (get_appliances_fetch supply b s).result = .error e by
          simp [get_appliances_fetch, h200, h401, hA]] at h
        cases h
      | ok u =>
        have hok : authOkB b.auth = true := (auth_ok_iff supply b.auth s).mp hA
        rw [get_appliances_fetch_401_ok supply b s h200 h401 hok] at h ⊢
        refine ⟨by simpa [tickAppliances, h200] using h.symm, fun _ => hok, ?_⟩
        exact Or.inr (auth_ok_token supply b.auth s hok)
    · rw [get_appliances_fetch_other supply b s h200 h401] at h ⊢
      refine ⟨by simpa [tickAppliances, h200] using h.symm, ?_, Or.inl rfl⟩
      intro hc
      exact absurd hc h401

theorem get_appliances_some {γ : Type} (supply : Nat → String)
    (b : PollBackend γ) (s : ApiState) (tk : String)
    (hst : s.token = some tk) :
    get_appliances supply b s = get_appliances_fetch supply b s := by
  unfold get_appliances
  rw [hst]

theorem get_appliances_none_ok {γ : Type} (supply : Nat → String)
    (b : PollBackend γ) (s : ApiState) (hst : s.token = none)
    (hok : (authenticate supply b.auth s).result = .ok ()) :
    get_appliances supply b s =
      ⟨(get_appliances_fetch supply b
          (authenticate supply b.auth s).state).result,
        (get_appliances_fetch supply b
          (authenticate supply b.auth s).state).state,
        (authenticate supply b.auth s).trace ++
          (get_appliances_fetch supply b
            (authenticate supply b.auth s).state).trace⟩ := by
  simp [get_appliances, hst, hok]

theorem get_appliances_inv {γ : Type} (supply : Nat → String)
    (b : PollBackend γ) (s : ApiState) (l : List (Appliance γ))
    (h : (get_appliances supply b s).result = .ok l) :
    l = tickAppliances b ∧
      (b.appliancesStatus = 401 → authOkB b.auth = true) ∧
      ∃ t, (get_appliances supply b s).state.token = some t := by
  cases hst : s.token with
  | some tk =>
    rw [get_appliances_some supply b s tk hst] at h ⊢
    obtain ⟨hl, h401, htok⟩ := get_appliances_fetch_inv supply b s l h
    refine ⟨hl, h401, ?_⟩
    rcases htok with heq | ⟨t, ht⟩
    · exact ⟨tk, by rw [heq, hst]⟩
    · exact ⟨t, ht⟩
  | none =>
    cases hA : (authenticate supply b.auth s).result with
    | error e =>
      exfalso
      rw [show (get_appliances supply b s).result = .error e by
        simp [get_appliances, hst, hA]] at h
      cases h
    | ok u =>
      have hok : authOkB b.auth = true := (auth_ok_iff supply b.auth s).mp hA
      rw [get_appliances_none_ok supply b s hst hA] at h ⊢
      obtain ⟨hl, h401, htok⟩ :=
        get_appliances_fetch_inv supply b (authenticate supply b.auth s).state l h
      refine ⟨hl, h401, ?_⟩
      rcases htok with heq | ⟨t, ht⟩
      · rw [heq]
        exact auth_ok_token supply b.auth s hok
      · exact ⟨t, ht⟩

theorem fetch_notifications_other {γ : Type} (supply : Nat → String)
    (b : PollBackend γ) (cfg : ConfigOptions) (s : ApiState)
    (h200 : b.notificationsStatus ≠ 200) (h401 : b.notificationsStatus ≠ 401) :
    fetch_notifications supply b cfg s =
      ⟨.ok [], s, [Request.getNotifications]⟩ := by
  simp [fetch_notifications, get_notifications, h200, h401]

theorem fetch_notifications_401_ok {γ : Type} (supply : Nat → String)
    (b : PollBackend γ) (cfg : ConfigOptions) (s : ApiState)
    (_h200 : b.notificationsStatus ≠ 200) (h401 : b.notificationsStatus = 401)
    (hok : authOkB b.auth = true) :
    fetch_notifications supply b cfg s =
      ⟨.ok [], (authenticate supply b.auth s).state,
        Request.getNotifications :: (authenticate supply b.auth s).trace⟩ := by
  have hres := (auth_succ supply b.auth s hok).1
  simp [fetch_notifications, get_notifications, h401, hres]

theorem fetch_notifications_inv {γ : Type} (supply : Nat → String)
    (b : PollBackend γ) (cfg : ConfigOptions) (s : ApiState)
    (l : List NotificationRecord)
    (h : (fetch_notifications supply b cfg s).result = .ok l) :
    l = tickNotifications b cfg ∧
      (b.notificationsStatus = 401 → authOkB b.auth = true) ∧
      ((fetch_notifications supply b cfg s).state.token = s.token ∨
        ∃ t, (fetch_notifications supply b cfg s).state.token = some t) := by
  by_cases h200 : b.notificationsStatus = 200
  · rw [fetch_notifications_200 supply b cfg s h200] at h ⊢
    refine ⟨by simpa [tickNotifications, h200] using h.symm, ?_, Or.inl rfl⟩
    intro h401
    rw [h200] at h401
    cases h401
  · by_cases h401 : b.notificationsStatus = 401
    · cases hA : (authenticate supply b.auth s).result with
      | error e =>
        exfalso
        rw [show (fetch_notifications supply b cfg s).result = .error e by
          simp [fetch_notifications, get_notifications, h200, h401, hA]] at h
        cases h
      | ok u =>
        have hok : authOkB b.auth = true := (auth_ok_iff supply b.auth s).mp hA
        rw [fetch_notifications_401_ok supply b cfg s h200 h401 hok] at h ⊢
        refine ⟨by simpa [tickNotifications, h200] using h.symm, fun _ => hok, ?_⟩
        exact Or.inr (auth_ok_token supply b.auth s hok)
    · rw [fetch_notifications_other supply b cfg s h200 h401] at h ⊢
      refine ⟨by simpa [tickNotifications, h200] using h.symm, ?_, Or.inl rfl⟩
      intro hc
      exact absurd hc h401

theorem fetch_notifications_ok_of {γ : Type} (supply : Nat → String)
    (b : PollBackend γ) (cfg : ConfigOptions) (s : ApiState)
    (hn : b.notificationsStatus = 401 → authOkB b.auth = true) :
    (fetch_notifications supply b cfg s).result =
      .ok (tickNotifications b cfg) := by
  by_cases h200 : b.notificationsStatus = 200
  · rw [fetch_notifications_200 supply b cfg s h200]
    simp [tickNotifications, h200]
  · by_cases h401 : b.notificationsStatus = 401
    · rw [fetch_notifications_401_ok supply b cfg s h200 h401 (hn h401)]
      simp [tickNotifications, h200]
    · rw [fetch_notifications_other supply b cfg s h200 h401]
      simp [tickNotifications, h200]

theorem get_appliances_ok_of {γ : Type} (supply : Nat → String)
    (b : PollBackend γ) (s : ApiState) (tk : String)
    (htok : s.token = some tk)
    (ha : b.appliancesStatus = 401 → authOkB b.auth = true) :
    (get_appliances supply b s).result = .ok (tickAppliances b) := by
  rw [get_appliances_some supply b s tk htok]
  by_cases h200 : b.appliancesStatus = 200
  · rw [get_appliances_fetch_200 supply b s h200]
    simp [tickAppliances, h200]
  · by_cases h401 : b.appliancesStatus = 401
    · rw [get_appliances_fetch_401_ok supply b s h200 h401 (ha h401)]
      simp [tickAppliances, h200]
    · rw [get_appliances_fetch_other supply b s h200 h401]
      simp [tickAppliances, h200]

theorem tick_ok_of {γ : Type} (supply : Nat → String) (b : PollBackend γ)
    (cfg : ConfigOptions) (s : ApiState) (tk : String)
    (htok : s.token = some tk)
    (ha : b.appliancesStatus = 401 → authOkB b.auth = true)
    (hn : b.notificationsStatus = 401 → authOkB b.auth = true) :
    (async_update_method supply b cfg s).result =
      .ok ⟨tickAppliances b, tickNotifications b cfg⟩ := by
  have hga := get_appliances_ok_of supply b s tk htok ha
  have hfn := fetch_notifications_ok_of supply b cfg
    (get_appliances supply b s).state hn
  simp only [async_update_method, hga, hfn]

theorem tick_ok_inversion {γ : Type} (supply : Nat → String)
    (b : PollBackend γ) (cfg : ConfigOptions) (s : ApiState)
    (snap : Snapshot γ)
    (h : (async_update_method supply b cfg s).result = .ok snap) :
    snap = ⟨tickAppliances b, tickNotifications b cfg⟩ ∧
      (∃ t, (async_update_method supply b cfg s).state.token = some t) ∧
      (b.appliancesStatus = 401 → authOkB b.auth = true) ∧
      (b.notificationsStatus = 401 → authOkB b.auth = true) := by
  simp only [async_update_method] at h
  cases hga : (get_appliances supply b s).result with
  | error e =>
    rw [hga] at h
    simp at h
  | ok appliances =>
    rw [hga] at h
    cases hfn : (fetch_notifications supply b cfg
        (get_appliances supply b s).state).result with
    | error e =>
      rw [hfn] at h
      simp at h
    | ok notifications =>
      rw [hfn] at h
      have hsnap : snap = ⟨appliances, notifications⟩ := by
        simpa using h.symm
      obtain ⟨hla, h401a, ta, hta⟩ :=
        get_appliances_inv supply b s appliances hga
      obtain ⟨hln, h401n, htokn⟩ := fetch_notifications_inv supply b cfg
        (get_appliances supply b s).state notifications hfn
      have hstate : (async_update_method supply b cfg s).state =
          (fetch_notifications supply b cfg
            (get_appliances supply b s).state).state := by
        simp only [async_update_method, hga, hfn]
      refine ⟨by rw [hsnap, hla, hln], ?_, h401a, h401n⟩
      rcases htokn with heq | ⟨t, ht⟩
      · exact ⟨ta, by rw [hstate, heq]; exact hta⟩
      · exact ⟨t, by rw [hstate]; exact ht⟩

/-- C6: with the backend state fixed, running the poll tick a second
time from the state the first tick left behind yields a snapshot
structurally equal to the first — whenever the first tick produced a
snapshot, so does the second, and they are equal. -/
theorem claim_C6_poll_idempotent {γ : Type} (supply : Nat → String)
    (b : PollBackend γ) (cfg : ConfigOptions) (s : ApiState)
    (snap : Snapshot γ)
    (h : (async_update_method supply b cfg s).result = .ok snap) :
    (async_update_method supply b cfg
      (async_update_method supply b cfg s).state).result = .ok snap := by
  obtain ⟨hsnap, ⟨t, ht⟩, h401a, h401n⟩ :=
    tick_ok_inversion supply b cfg s snap h
  rw [hsnap]
  exact tick_ok_of supply b cfg _ t ht h401a h401n

theorem claim_C6_witness :
    (async_update_method (fun _ => "v") c10Backend c10Cfg c9State).result =
        .ok ⟨[], [c10n1]⟩ ∧
      (async_update_method (fun _ => "v") c10Backend c10Cfg
        (async_update_method (fun _ => "v") c10Backend c10Cfg
          c9State).state).result = .ok ⟨[], [c10n1]⟩ :=
  ⟨rfl,
    claim_C6_poll_idempotent (fun _ => "v") c10Backend c10Cfg c9State
      ⟨[], [c10n1]⟩ rfl⟩
